import Mathlib

/-!
Verification of the web30 fee-market transaction pipeline and AMM layer.

This file shallowly embeds the decision logic of two source files:

* client.rs: the `send_transaction` fee-market pipeline (fee defaulting,
  option application, balance-aware max-fee downscaling, the double
  validation around signing and the broadcast), `simulate_transaction`,
  `simulated_gas_price_and_limit`, and the `eth_wait_for_transaction`
  confirmation loop.

* amm.rs: `get_uniswap_price`, `swap_uniswap`, `swap_uniswap_eth_in`,
  `get_uniswap_pool_address`, the fee / sqrt-price width checks
  (`bad_fee`, `bad_sqrt_price_limit`) and the exact integer sqrt-price
  encoder `uniswap_sqrt_price_from_amounts`.

Machine integers (Uint256, u128) are modelled as Nat; Rust arithmetic on
Uint256 is arbitrary precision, so no modular reduction is needed, but
division by zero and Uint256 subtraction underflow abort in Rust, which we
model with explicit checked operations and a distinguished crash outcome.
Network interactions are modelled as an environment record carrying the
result each remote call would produce; `f32` arithmetic (gas limit and fee
multipliers) is uninterpreted and carried in the environment as abstract
functions, since no claim depends on its rounding behaviour.
-/

namespace Web30

/-- The error enumeration of the crate.  The defining module
(jsonrpc/error.rs) is not among the given sources; the constructors are
taken from their uses in client.rs / amm.rs and from the spec's error
taxonomy: BadInput, InsufficientGas (with balance, base gas and required
gas context), PreLondon, SyncingNode, ContractCallError, BadResponse,
TransactionTimeout, NoBlockProduced, plus a transport error kind. -/
inductive Web3Error where
  | BadResponse (msg : String)
  | BadInput (msg : String)
  | ContractCallError (msg : String)
  | SyncingNode (msg : String)
  | InsufficientGas (balance baseGas gasRequired : Nat)
  | PreLondon
  | TransactionTimeout
  | NoBlockProduced (time : Nat)
  | TransportError (msg : String)
  deriving Repr, DecidableEq

/-- Result of running a piece of Rust code that can panic: a success
value, a returned `Web3Error`, or a crash (Rust panic / unwrap on Err /
division by zero / slice range failure). -/
inductive Outcome (α : Type) where
  | ok (val : α)
  | err (e : Web3Error)
  | crashed
  deriving Repr, DecidableEq

instance {ε α : Type} [DecidableEq ε] [DecidableEq α] :
    DecidableEq (Except ε α) := fun a b =>
  match a, b with
  | .ok x, .ok y =>
    if h : x = y then .isTrue (by rw [h])
    else .isFalse (fun hc => h (by injection hc))
  | .error x, .error y =>
    if h : x = y then .isTrue (by rw [h])
    else .isFalse (fun hc => h (by injection hc))
  | .ok _, .error _ => .isFalse (fun hc => Except.noConfusion hc)
  | .error _, .ok _ => .isFalse (fun hc => Except.noConfusion hc)

/-- Rust `a - b` on Uint256 panics on underflow; the checked model
returns `none` exactly when the Rust subtraction would panic. -/
def checkedSub (a b : Nat) : Option Nat :=
  if b ≤ a then some (a - b) else none

/-- `const ETHEREUM_INTRINSIC_GAS: u32 = 21000` (client.rs). -/
def ETHEREUM_INTRINSIC_GAS : Nat := 21000

/-- clarity's TT24M1 constant: 2^24 - 1, the largest uint24. -/
def TT24M1 : Nat := 2 ^ 24 - 1

/-- clarity's TT160M1 constant: 2^160 - 1, the largest uint160. -/
def TT160M1 : Nat := 2 ^ 160 - 1

/-- amm.rs `bad_fee`: true iff the fee does not fit in a uint24. -/
def bad_fee (fee : Nat) : Bool := fee > TT24M1

/-- amm.rs `bad_sqrt_price_limit`: true iff the value does not fit in a
uint160. -/
def bad_sqrt_price_limit (sqrtPriceLimit : Nat) : Bool := sqrtPriceLimit > TT160M1

/-- amm.rs `uniswap_sqrt_price_from_amounts`: shifts amount1 left by 192
bits, divides by amount0 (floor division on BigUint) and takes
`BigUint::sqrt`, the floor integer square root. -/
def uniswap_sqrt_price_from_amounts (amount_1 amount_0 : Nat) : Nat :=
  Nat.sqrt (amount_1 * 2 ^ 192 / amount_0)

/-- Crash-aware version of `uniswap_sqrt_price_from_amounts`: the Rust
BigUint division panics when `amount_0 = 0`, which the `none` result
models. -/
def uniswap_sqrt_price_from_amounts_checked (amount_1 amount_0 : Nat) : Option Nat :=
  if amount_0 = 0 then none
  else some (uniswap_sqrt_price_from_amounts amount_1 amount_0)

/-- client.rs `struct SimulatedGas`. -/
structure SimulatedGas where
  limit : Nat
  price : Nat
  deriving Repr, DecidableEq

/-- client.rs `simulated_gas_price_and_limit`, parametrised by the result
of the `eth_gas_price` call it performs: on success it divides the balance
by the gas price (a Rust panic when the reported gas price is zero) and
caps the limit at the 12 450 000 hard cap. -/
def simulated_gas_price_and_limit (balance : Nat)
    (gasPriceResult : Except Web3Error Nat) : Outcome SimulatedGas :=
  match gasPriceResult with
  | .error e => .err e
  | .ok gasPrice =>
    if gasPrice = 0 then .crashed
    else .ok { limit := min 12450000 (balance / gasPrice), price := gasPrice }

/-- `Uint256::from_bytes_be`: big-endian interpretation of a byte list. -/
def from_bytes_be (bs : List Nat) : Nat :=
  bs.foldl (fun acc b => acc * 256 + b) 0

/-- types.rs `SendTxOption` as consumed by client.rs: the numeric options
carry Uint256 values (Nat here); the multiplier options carry `f32`
values, whose type is kept abstract as the parameter `F` since their
arithmetic is floating point. -/
inductive SendTxOption (F : Type) where
  | GasPrice (gp : Nat)
  | GasMaxFee (gp : Nat)
  | GasPriorityFee (gp : Nat)
  | GasLimitMultiplier (glm : F)
  | GasLimit (gl : Nat)
  | Nonce (n : Nat)
  | AccessList (list : List Nat)
  | GasPriceMultiplier (gm : F)
  | GasMaxFeeMultiplier (gm : F)
  | NetworkId (id : Nat)
  deriving Repr, DecidableEq

/-- The mutable locals of `send_transaction` that the option loop writes:
`max_priority_fee_per_gas`, `gas_limit_multiplier`, `gas_limit`,
`access_list`, `max_fee_per_gas`, `nonce`. -/
structure TxSettings (F : Type) where
  maxPriorityFeePerGas : Nat
  gasLimitMultiplier : F
  gasLimit : Option Nat
  accessList : List Nat
  maxFeePerGas : Nat
  nonce : Nat
  deriving Repr, DecidableEq

/-- The initial values of those locals just before the option loop:
priority fee 1, multiplier `1f32` (the abstract value `fOne`), no explicit
gas limit, empty access list, max fee `base_fee_per_gas * 2`, and the
fetched transaction count as nonce. -/
def initial_tx_settings {F : Type} (fOne : F) (nonce baseFeePerGas : Nat) :
    TxSettings F :=
  { maxPriorityFeePerGas := 1
    gasLimitMultiplier := fOne
    gasLimit := none
    accessList := []
    maxFeePerGas := baseFeePerGas * 2
    nonce := nonce }

/-- One arm of the `for option in options` match in `send_transaction`.
`applyFeeMul m v` is the abstract semantics of `(v as f32 * m) as u128`
and `fRound m` of `m.round() as u128`; the source takes the float path
when the base fee fits a u128 and the integer-rounding path otherwise.
A `NetworkId` option makes the call fail with `BadInput`. -/
def apply_send_tx_option {F : Type} (applyFeeMul : F → Nat → Nat)
    (fRound : F → Nat) (baseFeePerGas : Nat) (s : TxSettings F) :
    SendTxOption F → Except Web3Error (TxSettings F)
  | .GasMaxFee gp => .ok { s with maxFeePerGas := gp }
  | .GasPrice gp => .ok { s with maxFeePerGas := gp }
  | .GasPriorityFee gp => .ok { s with maxPriorityFeePerGas := gp }
  | .GasLimitMultiplier glm => .ok { s with gasLimitMultiplier := glm }
  | .GasLimit gl => .ok { s with gasLimit := some gl }
  | .Nonce n => .ok { s with nonce := n }
  | .AccessList list => .ok { s with accessList := list }
  | .GasPriceMultiplier gm =>
    .ok { s with maxFeePerGas :=
      if baseFeePerGas < 2 ^ 128 then applyFeeMul gm baseFeePerGas
      else baseFeePerGas * fRound gm }
  | .GasMaxFeeMultiplier gm =>
    .ok { s with maxFeePerGas :=
      if baseFeePerGas < 2 ^ 128 then applyFeeMul gm baseFeePerGas
      else baseFeePerGas * fRound gm }
  | .NetworkId _ => .error (.BadInput "Invalid option for eip1559 tx")

/-- The option loop of `send_transaction`: left fold of
`apply_send_tx_option` over the supplied options, in order. -/
def apply_send_tx_options {F : Type} (applyFeeMul : F → Nat → Nat)
    (fRound : F → Nat) (baseFeePerGas : Nat) (s : TxSettings F)
    (options : List (SendTxOption F)) : Except Web3Error (TxSettings F) :=
  options.foldlM (apply_send_tx_option applyFeeMul fRound baseFeePerGas) s

/-- The balance-aware downscale segment of `send_transaction`
(client.rs lines 677-688): if the promised fee exceeds the balance and
even the base fee does, fail with `InsufficientGas`; if only the promised
fee does, recompute the max fee as `balance / gas_limit`; otherwise keep
the max fee. -/
def downscale_max_fee (maxFeePerGas baseFeePerGas gasLimit balance : Nat) :
    Except Web3Error Nat :=
  if maxFeePerGas * gasLimit > balance then
    if baseFeePerGas * gasLimit > balance then
      .error (.InsufficientGas balance baseFeePerGas gasLimit)
    else
      .ok (balance / gasLimit)
  else
    .ok maxFeePerGas

/-- Observable actions of the later pipeline stages: a call of
`Transaction::is_valid`, of `Transaction::sign`, and of
`eth_send_raw_transaction`. -/
inductive SendEvent where
  | validate
  | sign
  | broadcast
  deriving Repr, DecidableEq

/-- The results the network and the signing library feed into one run of
`send_transaction`, in the order the source consumes them, plus the
abstract `f32` semantics. -/
structure SendEnv (F : Type) where
  balance : Except Web3Error Nat
  transactionCount : Except Web3Error Nat
  baseFeePerGas : Except Web3Error (Option Nat)
  chainId : Except Web3Error Nat
  encodeCall : Except Web3Error (List Nat)
  estimateGas : Except Web3Error Nat
  applyFeeMul : F → Nat → Nat
  applyGasMul : F → Nat → Nat
  fRound : F → Nat
  fOne : F
  validUnsigned : Bool
  validSigned : Bool
  broadcastResult : Except Web3Error Nat

/-- The fields of the EIP-1559 transaction at the moment it is signed and
broadcast (after the downscale wrote the final max fee). -/
structure SentTx where
  maxFeePerGas : Nat
  maxPriorityFeePerGas : Nat
  gasLimit : Nat
  nonce : Nat
  deriving Repr, DecidableEq

/-- What one run of `send_transaction` produces: the returned value, the
trace of validate/sign/broadcast actions, and the transaction that
reached the signing stage (none if the run failed before it). -/
structure SendResult where
  result : Except Web3Error Nat
  events : List SendEvent
  sent : Option SentTx
  deriving Repr, DecidableEq

/-- The read-only prefix of client.rs `send_transaction` (the non-Tron
path): unwrap the four parallel fetches in order (balance, nonce, base
fee, chain id); fail `PreLondon` when the latest block carries no base
fee; default the max fee to twice the base fee and the priority fee to 1;
fail `InsufficientGas` when the balance is below the 21000 intrinsic gas;
fold the options; encode the calldata; take the explicit gas limit or
estimate it; scale the gas limit by the multiplier (float path when it
fits u128); downscale the max fee against the balance.  Produces the
transaction handed to the validate / sign / broadcast tail. -/
def prepare_transaction {F : Type} (env : SendEnv F)
    (options : List (SendTxOption F)) : Except Web3Error SentTx :=
  match env.balance with
  | .error e => .error e
  | .ok balance =>
  match env.transactionCount with
  | .error e => .error e
  | .ok nonce0 =>
  match env.baseFeePerGas with
  | .error e => .error e
  | .ok baseFeeOpt =>
  match env.chainId with
  | .error e => .error e
  | .ok _chainId =>
  match baseFeeOpt with
  | none => .error .PreLondon
  | some baseFee =>
    if balance = 0 ∨ balance < ETHEREUM_INTRINSIC_GAS then
      .error (.InsufficientGas balance ETHEREUM_INTRINSIC_GAS
        ETHEREUM_INTRINSIC_GAS)
    else
      match apply_send_tx_options env.applyFeeMul env.fRound baseFee
          (initial_tx_settings env.fOne nonce0 baseFee) options with
      | .error e => .error e
      | .ok s =>
      match env.encodeCall with
      | .error e => .error e
      | .ok _data =>
      match (match s.gasLimit with
             | some gl => Except.ok gl
             | none => env.estimateGas : Except Web3Error Nat) with
      | .error e => .error e
      | .ok gasLimit0 =>
        let gasLimit :=
          if gasLimit0 < 2 ^ 128 then
            env.applyGasMul s.gasLimitMultiplier gasLimit0
          else gasLimit0 * env.fRound s.gasLimitMultiplier
        match downscale_max_fee s.maxFeePerGas baseFee gasLimit balance with
        | .error e => .error e
        | .ok maxFee =>
          .ok ⟨maxFee, s.maxPriorityFeePerGas, gasLimit, s.nonce⟩

/-- The tail of client.rs `send_transaction` (lines 692-704): validate
the draft; sign it; validate the signed transaction; sign it a second
time; broadcast its bytes.  Either failed validation returns `BadInput`
without broadcasting. -/
def finalize_transaction (validUnsigned validSigned : Bool)
    (broadcastResult : Except Web3Error Nat) (tx : SentTx) : SendResult :=
  if !validUnsigned then
    ⟨.error (.BadInput "About to send invalid tx"), [.validate], some tx⟩
  else if !validSigned then
    ⟨.error (.BadInput "About to send invalid tx"),
      [.validate, .sign, .validate], some tx⟩
  else
    ⟨broadcastResult,
      [.validate, .sign, .validate, .sign, .broadcast], some tx⟩

/-- client.rs `send_transaction` (the non-Tron path): the read-only
prefix followed by the validate / sign / broadcast tail. -/
def send_transaction {F : Type} (env : SendEnv F)
    (options : List (SendTxOption F)) : SendResult :=
  match prepare_transaction env options with
  | .error e => ⟨.error e, [], none⟩
  | .ok tx =>
    finalize_transaction env.validUnsigned env.validSigned
      env.broadcastResult tx

/-- The slice of a `TransactionResponse` that `eth_wait_for_transaction`
inspects: its `get_block_number()` value. -/
structure TransactionResponse where
  blockNumber : Option Nat
  deriving Repr, DecidableEq

/-- What one iteration of the `eth_wait_for_transaction` loop observes:
the result of `eth_get_transaction_by_hash`, the result of
`eth_block_number` (consulted only on the block-depth path), and whether
`Instant::now() - start > timeout` held at the end-of-iteration check. -/
structure WaitPoll where
  txByHash : Except Web3Error (Option TransactionResponse)
  blockNumber : Except Web3Error Nat
  timedOut : Bool
  deriving Repr, DecidableEq

/-- What one loop iteration decides: return a value or error, keep
polling, or crash (unreachable: the one partial operation, the Uint256
subtraction, is guarded). -/
inductive WaitDecision where
  | ret (r : Except Web3Error TransactionResponse)
  | keepPolling
  | crashed
  deriving Repr, DecidableEq

/-- One iteration of the `eth_wait_for_transaction` loop, client.rs lines
790-820.  A poll error returns immediately.  With no block-depth
requirement, a transaction carrying any block number is returned at once.
With requirement `n`, the current block is fetched (its error returns
immediately) and the transaction is returned only when
`current_block > n && current_block - n >= tx_block`; the subtraction is
modelled checked, so an underflow would surface as `crashed`.  If nothing
was decided and the deadline has passed, `TransactionTimeout` is
returned; otherwise the loop continues. -/
def eth_wait_step (blocksToWait : Option Nat) (p : WaitPoll) : WaitDecision :=
  match p.txByHash with
  | .error e => .ret (.error e)
  | .ok maybeTransaction =>
    let inner : WaitDecision :=
      match maybeTransaction with
      | none => .keepPolling
      | some transaction =>
        match blocksToWait, transaction.blockNumber with
        | none, some _ => .ret (.ok transaction)
        | none, none => .keepPolling
        | some n, some txBlock =>
          match p.blockNumber with
          | .error e => .ret (.error e)
          | .ok currentBlock =>
            if currentBlock > n then
              match checkedSub currentBlock n with
              | some d => if d ≥ txBlock then .ret (.ok transaction)
                          else .keepPolling
              | none => .crashed
            else .keepPolling
        | some _, none => .keepPolling
    match inner with
    | .keepPolling =>
      if p.timedOut then .ret (.error .TransactionTimeout) else .keepPolling
    | d => d

/-- Result of running the wait loop over a finite trace of polls. -/
inductive WaitOutcome where
  | ret (r : Except Web3Error TransactionResponse)
  | crashed
  | stillPolling
  deriving Repr, DecidableEq

/-- client.rs `eth_wait_for_transaction`, run over a finite trace of
polls; `stillPolling` means the trace ended with the loop still going. -/
def eth_wait_for_transaction (blocksToWait : Option Nat) :
    List WaitPoll → WaitOutcome
  | [] => .stillPolling
  | p :: ps =>
    match eth_wait_step blocksToWait p with
    | .ret r => .ret r
    | .crashed => .crashed
    | .keepPolling => eth_wait_for_transaction blocksToWait ps

/-- The JSON-RPC request object built by `simulate_transaction`.
Modelled from the spec: `TransactionRequest` lives in types.rs, which is
not among the given sources; per the spec's data model it is a draft with
the optional fields the source setters touch (nonce, gas price, gas
limit) beside the from / to / calldata triple. -/
structure TransactionRequest where
  fromAddress : Nat
  toAddress : Nat
  data : List Nat
  nonce : Option Nat
  gasPrice : Option Nat
  gasLimit : Option Nat
  deriving Repr, DecidableEq

/-- Modelled from the spec: `TransactionRequest::quick_tx` (types.rs, not
among the given sources) builds the minimal simulated-call request — the
from address, the contract address and the calldata, with no nonce and no
gas fields. -/
def quick_tx (ownAddress contractAddress : Nat) (data : List Nat) :
    TransactionRequest :=
  { fromAddress := ownAddress
    toAddress := contractAddress
    data := data
    nonce := none
    gasPrice := none
    gasLimit := none }

/-- The results of the remote reads `simulate_transaction` can perform on
its `check_sync` path. -/
structure SimulateEnv where
  balance : Except Web3Error Nat
  transactionCount : Except Web3Error Nat
  gasPrice : Except Web3Error Nat

/-- The request-building prefix of client.rs `simulate_transaction`
(lines 724-743): start from `quick_tx`; only when `check_sync` is true,
fetch the balance and fail `InsufficientGas` below the 21000 intrinsic
gas, then fetch the nonce and the simulated gas pair and set the nonce,
gas limit and gas price fields.  The built request is then handed to
`eth_call` (or `eth_call_at_height`) unchanged. -/
def simulate_transaction_request (checkSync : Bool) (env : SimulateEnv)
    (ownAddress contractAddress : Nat) (data : List Nat) :
    Outcome TransactionRequest :=
  let transaction := quick_tx ownAddress contractAddress data
  if checkSync then
    match env.balance with
    | .error e => .err e
    | .ok balance =>
      if balance = 0 ∨ balance < ETHEREUM_INTRINSIC_GAS then
        .err (.InsufficientGas balance ETHEREUM_INTRINSIC_GAS
          ETHEREUM_INTRINSIC_GAS)
      else
        match env.transactionCount with
        | .error e => .err e
        | .ok nonce =>
          match simulated_gas_price_and_limit balance env.gasPrice with
          | .err e => .err e
          | .crashed => .crashed
          | .ok gas =>
            .ok { transaction with
                    nonce := some nonce
                    gasLimit := some gas.limit
                    gasPrice := some gas.price }
  else .ok transaction

/-- `Web3::new` sets `check_sync: false` on both of its construction
paths (client.rs lines 68-85). -/
def web3_new_check_sync : Bool := false

/-- The network results one run of `get_uniswap_price` consumes: the
quoter simulation bytes and the value of the nested
`get_sensible_amount_out_from_sqrt_price` call (whose own arithmetic goes
through f64 and is therefore carried as a result, not recomputed). -/
structure QuoteEnv where
  simulate : Except Web3Error (List Nat)
  sensibleAmountOut : Except Web3Error Nat

/-- `result.get(0..32)` on the simulation bytes: the first 32 bytes, or
`none` when fewer are available. -/
def first_32_bytes (result : List Nat) : Option (List Nat) :=
  if result.length ≥ 32 then some (result.take 32) else none

/-- amm.rs `get_uniswap_price`: validate the fee (default 3000) against
uint24 and the sqrt price limit (default 0) against uint160, simulate the
quoter call, compute the sensible minimum amount out, decode the first 32
bytes of the answer big-endian (failing `ContractCallError` when the
answer is shorter), and reject the quote with
`BadResponse "Liquidity too low"` when it falls below the minimum. -/
def get_uniswap_price (env : QuoteEnv) (fee_uint24 : Option Nat)
    (_amount : Nat) (sqrt_price_limit_x96_uint160 : Option Nat) :
    Except Web3Error Nat :=
  let fee := fee_uint24.getD 3000
  if bad_fee fee then
    .error (.BadInput
      "Bad fee input to swap price - value too large for uint24")
  else
    let sqrtPriceLimit := sqrt_price_limit_x96_uint160.getD 0
    if bad_sqrt_price_limit sqrtPriceLimit then
      .error (.BadInput
        "Bad sqrt_price_limit_x96 input to swap price - value too large for uint160")
    else
      match env.simulate with
      | .error e => .error e
      | .ok result =>
        match env.sensibleAmountOut with
        | .error e => .error e
        | .ok amountOutMin =>
          match first_32_bytes result with
          | none => .error (.ContractCallError "Bad response from swap price")
          | some bytes =>
            let amountOut := from_bytes_be bytes
            if amountOut < amountOutMin then
              .error (.BadResponse "Liquidity too low")
            else
              .ok amountOut

/-- The network result `get_uniswap_pool_address` consumes: the factory
`getPool` simulation bytes. -/
structure PoolEnv where
  simulate : Except Web3Error (List Nat)

/-- amm.rs `get_uniswap_pool_address`: note there is no `bad_fee` check
on this path.  The simulation result is `unwrap()`ed — a crash when the
call failed; an all-zero 32-byte answer is `BadResponse`; otherwise the
last 20 bytes become the pool address (slicing crashes when fewer than 20
bytes came back). -/
def get_uniswap_pool_address (env : PoolEnv) (fee_uint24 : Option Nat) :
    Outcome Nat :=
  let _fee := fee_uint24.getD 3000
  match env.simulate with
  | .error _ => .crashed
  | .ok poolResult =>
    if poolResult = List.replicate 32 0 then
      .err (.BadResponse "No such Uniswap pool")
    else if poolResult.length < 20 then .crashed
    else .ok (from_bytes_be (poolResult.drop (poolResult.length - 20)))

/-- The network results one run of `swap_uniswap` can consume, in source
order: the latest block timestamp (for deadline defaulting), the sensible
minimum amount out, the ERC20 approval check, the transaction count and
the approval transaction (when not yet approved), the inner
`send_transaction`, and the confirmation wait. -/
structure SwapEnv where
  latestBlockTimestamp : Except Web3Error Nat
  sensibleAmountOut : Except Web3Error Nat
  approved : Except Web3Error Bool
  transactionCount : Except Web3Error Nat
  approveTransfer : Except Web3Error Nat
  sendTransaction : Except Web3Error Nat
  waitForTransaction : Except Web3Error Unit

/-- amm.rs `swap_uniswap`: validate fee and sqrt price limit; default the
deadline to latest-block timestamp + 600 via `.unwrap()` — a crash when
that fetch fails; default the minimum amount out via the sensible-amount
computation; inject the 1.2 gas limit multiplier unless one is set;
approve the router when needed (queueing the follow-up nonce when not
waiting); send the swap transaction and optionally wait for it. -/
def swap_uniswap (env : SwapEnv) (fee_uint24 : Option Nat)
    (deadline : Option Nat) (amount_out_min : Option Nat)
    (sqrt_price_limit_x96_uint160 : Option Nat) (wait : Bool) :
    Outcome Nat :=
  let fee := fee_uint24.getD 3000
  if bad_fee fee then
    .err (.BadInput
      "Bad fee input to swap_uniswap - value too large for uint24")
  else
    let sqrtPriceLimit := sqrt_price_limit_x96_uint160.getD 0
    if bad_sqrt_price_limit sqrtPriceLimit then
      .err (.BadInput
        "Bad sqrt_price_limit_x96 input to swap_uniswap - value too large for uint160")
    else
      match (match deadline with
             | none =>
               match env.latestBlockTimestamp with
               | .error _ => none
               | .ok timestamp => some (timestamp + 10 * 60)
             | some val => some val : Option Nat) with
      | none => .crashed
      | some _deadline =>
        match (match amount_out_min with
               | some amt => Except.ok amt
               | none => env.sensibleAmountOut : Except Web3Error Nat) with
        | .error e => .err e
        | .ok _amountOutMin =>
          match env.approved with
          | .error e => .err e
          | .ok approved =>
            let approvalStage : Outcome Unit :=
              if approved then .ok ()
              else
                match env.transactionCount with
                | .error e => .err e
                | .ok _nonce =>
                  match env.approveTransfer with
                  | .error e => .err e
                  | .ok _ => .ok ()
            match approvalStage with
            | .err e => .err e
            | .crashed => .crashed
            | .ok _ =>
              match env.sendTransaction with
              | .error e => .err e
              | .ok txid =>
                if wait then
                  match env.waitForTransaction with
                  | .error e => .err e
                  | .ok _ => .ok txid
                else .ok txid

/-- amm.rs `swap_uniswap_eth_in`: the ETH-denominated variant — same fee
and sqrt-price validation, same `.unwrap()` deadline defaulting, no
approval stage, value-carrying send. -/
def swap_uniswap_eth_in (env : SwapEnv) (fee_uint24 : Option Nat)
    (deadline : Option Nat) (amount_out_min : Option Nat)
    (sqrt_price_limit_x96_uint160 : Option Nat) (wait : Bool) :
    Outcome Nat :=
  let fee := fee_uint24.getD 3000
  if bad_fee fee then
    .err (.BadInput
      "Bad fee input to swap_uniswap_eth_in - value too large for uint24")
  else
    let sqrtPriceLimit := sqrt_price_limit_x96_uint160.getD 0
    if bad_sqrt_price_limit sqrtPriceLimit then
      .err (.BadInput
        "Bad sqrt_price_limit_x96 input to swap_uniswap_eth_in - value too large for uint160")
    else
      match (match deadline with
             | none =>
               match env.latestBlockTimestamp with
               | .error _ => none
               | .ok timestamp => some (timestamp + 10 * 60)
             | some val => some val : Option Nat) with
      | none => .crashed
      | some _deadline =>
        match (match amount_out_min with
               | some amt => Except.ok amt
               | none => env.sensibleAmountOut : Except Web3Error Nat) with
        | .error e => .err e
        | .ok _amountOutMin =>
          match env.sendTransaction with
          | .error e => .err e
          | .ok txid =>
            if wait then
              match env.waitForTransaction with
              | .error e => .err e
              | .ok _ => .ok txid
            else .ok txid

/-! ## Concrete environments used by witnesses and counterexamples -/

/-- A fully successful `send_transaction` environment: balance 10^9,
nonce 5, base fee 10, chain id 1, estimated gas 21000, identity `f32`
semantics, both validations passing, broadcast returning txid 7. -/
def sendEnvOk : SendEnv Nat :=
  { balance := .ok 1000000000
    transactionCount := .ok 5
    baseFeePerGas := .ok (some 10)
    chainId := .ok 1
    encodeCall := .ok [1, 2]
    estimateGas := .ok 21000
    applyFeeMul := fun m v => m * v
    applyGasMul := fun _ v => v
    fRound := fun m => m
    fOne := 1
    validUnsigned := true
    validSigned := true
    broadcastResult := .ok 7 }

/-- A quote environment whose simulation and sensible-amount calls both
succeed trivially. -/
def quoteEnvTrivial : QuoteEnv := ⟨.ok [], .ok 0⟩

/-- A swap environment whose remote calls all succeed trivially. -/
def swapEnvTrivial : SwapEnv :=
  ⟨.ok 0, .ok 0, .ok true, .ok 0, .ok 0, .ok 0, .ok ()⟩

/-- A pool environment whose simulation call succeeds trivially. -/
def poolEnvTrivial : PoolEnv := ⟨.ok []⟩

/-- A swap environment whose latest-block fetch fails. -/
def swapEnvBlockFetchFails : SwapEnv :=
  ⟨.error (.TransportError "connection refused"), .ok 0, .ok true,
    .ok 0, .ok 0, .ok 0, .ok ()⟩

/-! ## Theorems -/

/-- C7: for every pair (amount1, amount0) with amount0 ≠ 0,
`uniswap_sqrt_price_from_amounts` returns exactly the integer square root
(the floor of the real square root) of `floor((amount1 * 2^192) / amount0)`,
computed with exact arbitrary-precision integer arithmetic: its square is
at most the ratio and the next square strictly exceeds it, which
characterises the floor of the real square root uniquely. -/
theorem uniswap_sqrt_price_from_amounts_is_integer_sqrt
    (amount_1 amount_0 : Nat) (_h : amount_0 ≠ 0) :
    uniswap_sqrt_price_from_amounts amount_1 amount_0 *
        uniswap_sqrt_price_from_amounts amount_1 amount_0
      ≤ amount_1 * 2 ^ 192 / amount_0
    ∧ amount_1 * 2 ^ 192 / amount_0
      < (uniswap_sqrt_price_from_amounts amount_1 amount_0 + 1) *
        (uniswap_sqrt_price_from_amounts amount_1 amount_0 + 1) := by
  unfold uniswap_sqrt_price_from_amounts
  exact ⟨Nat.sqrt_le _, Nat.lt_succ_sqrt _⟩

/-- Witness for C7 at (amount1, amount0) = (0, 1). -/
theorem uniswap_sqrt_price_from_amounts_is_integer_sqrt_witness :
    (1 : Nat) ≠ 0
    ∧ (uniswap_sqrt_price_from_amounts 0 1 *
          uniswap_sqrt_price_from_amounts 0 1
        ≤ 0 * 2 ^ 192 / 1
      ∧ 0 * 2 ^ 192 / 1
        < (uniswap_sqrt_price_from_amounts 0 1 + 1) *
          (uniswap_sqrt_price_from_amounts 0 1 + 1)) :=
  ⟨one_ne_zero,
    uniswap_sqrt_price_from_amounts_is_integer_sqrt 0 1 one_ne_zero⟩

/-- C8 counterexample: when the gas-price query reports a price of zero,
`simulated_gas_price_and_limit` does not return the (price, limit) pair —
the Uint256 division `balance / gas_price` panics.  Concrete input:
balance 5, reported gas price 0. -/
theorem simulated_gas_price_and_limit_crash_on_zero_price :
    simulated_gas_price_and_limit 5 (.ok 0) = .crashed
    ∧ simulated_gas_price_and_limit 5 (.ok 0)
        ≠ .ok { limit := min 12450000 (5 / 0), price := 0 } := by
  exact ⟨rfl, by decide⟩

/-- C8 (amended): for every nonzero gas price the function returns the
pair (price = gas price, limit = min(12450000, balance / gas price)); the
only failures are the propagated gas-price retrieval error and the
division-by-zero panic at a reported gas price of zero. -/
theorem simulated_gas_price_and_limit_spec
    (balance gasPrice : Nat) (e : Web3Error) :
    simulated_gas_price_and_limit balance (.error e) = .err e
    ∧ (gasPrice ≠ 0 →
        simulated_gas_price_and_limit balance (.ok gasPrice)
          = .ok { limit := min 12450000 (balance / gasPrice)
                  price := gasPrice })
    ∧ simulated_gas_price_and_limit balance (.ok 0) = .crashed := by
  refine ⟨rfl, ?_, rfl⟩
  intro h
  simp [simulated_gas_price_and_limit, h]

/-- Witness for C8's amended theorem at balance 100000, gas price 7. -/
theorem simulated_gas_price_and_limit_spec_witness :
    (7 : Nat) ≠ 0
    ∧ simulated_gas_price_and_limit 100000 (.ok 7)
        = .ok { limit := min 12450000 (100000 / 7), price := 7 } :=
  ⟨by decide, (simulated_gas_price_and_limit_spec 100000 7 .PreLondon).2.1
    (by decide)⟩

/-- C1: in `send_transaction`, after the gas limit is scaled and set (the
hypotheses pin the environment so that the pipeline reaches the
balance-downscale segment with max fee `mf`, gas limit `gl` and balance
`bal`): if both `mf * gl` and `baseFee * gl` exceed the balance, the call
fails with `InsufficientGas` carrying the balance; if
`baseFee * gl ≤ bal < mf * gl`, it does not fail there and the
transaction that proceeds to signing carries the recomputed max fee
`bal / gl` (integer division). -/
theorem send_transaction_balance_downscale {F : Type} (env : SendEnv F)
    (mf gl bal nonce0 cid baseFee : Nat) (d : List Nat)
    (hbal : env.balance = .ok bal)
    (hn : env.transactionCount = .ok nonce0)
    (hbf : env.baseFeePerGas = .ok (some baseFee))
    (hc : env.chainId = .ok cid)
    (henc : env.encodeCall = .ok d)
    (hmin : ETHEREUM_INTRINSIC_GAS ≤ bal)
    (hfit : gl < 2 ^ 128)
    (hscale : env.applyGasMul env.fOne gl = gl) :
    (bal < mf * gl → bal < baseFee * gl →
      send_transaction env [.GasMaxFee mf, .GasLimit gl]
        = ⟨.error (.InsufficientGas bal baseFee gl), [], none⟩)
    ∧ (baseFee * gl ≤ bal → bal < mf * gl →
      ∃ t, (send_transaction env [.GasMaxFee mf, .GasLimit gl]).sent = some t
        ∧ t.maxFeePerGas = bal / gl) := by
  have hb0 : ¬ (bal = 0 ∨ bal < ETHEREUM_INTRINSIC_GAS) := by
    unfold ETHEREUM_INTRINSIC_GAS at hmin ⊢
    omega
  have hprep : prepare_transaction env [.GasMaxFee mf, .GasLimit gl]
      = (downscale_max_fee mf baseFee gl bal).map
          (fun maxFee => ⟨maxFee, 1, gl, nonce0⟩) := by
    simp only [prepare_transaction, hbal, hn, hbf, hc, henc,
      apply_send_tx_options, apply_send_tx_option, initial_tx_settings,
      List.foldlM, if_neg hb0, bind, Except.bind, pure, Except.pure,
      if_pos hfit, hscale]
    cases downscale_max_fee mf baseFee gl bal <;> rfl
  constructor
  · intro h1 h2
    have hd : downscale_max_fee mf baseFee gl bal
        = .error (.InsufficientGas bal baseFee gl) := by
      simp [downscale_max_fee, h1, h2]
    simp [send_transaction, hprep, hd, Except.map]
  · intro h1 h2
    have hd : downscale_max_fee mf baseFee gl bal = .ok (bal / gl) := by
      simp [downscale_max_fee, h1, h2]
    refine ⟨⟨bal / gl, 1, gl, nonce0⟩, ?_, rfl⟩
    simp only [send_transaction, hprep, hd, Except.map]
    unfold finalize_transaction
    cases env.validUnsigned <;> cases env.validSigned <;> simp

/-- Witness for C1 at balance 10^9, base fee 10, max-fee option 2·10^6,
gas-limit option 1000: the base cost 10·1000 is affordable, the promised
cost 2·10^9 is not, and the signed transaction carries max fee
10^9 / 1000. -/
theorem send_transaction_balance_downscale_witness :
    (10 * 1000 ≤ 1000000000 ∧ 1000000000 < 2000000 * 1000)
    ∧ (∃ t, (send_transaction sendEnvOk
        [.GasMaxFee 2000000, .GasLimit 1000]).sent = some t
        ∧ t.maxFeePerGas = 1000000000 / 1000) :=
  ⟨by decide,
    (send_transaction_balance_downscale sendEnvOk 2000000 1000 1000000000
      5 1 10 [1, 2] rfl rfl rfl rfl rfl (by decide) (by decide) rfl).2
      (by decide) (by decide)⟩

/-- C3: in `get_uniswap_price`, once the width checks pass and the quoter
simulation and the sensible-amount computation both succeed with an
answer of at least 32 bytes: a decoded quoted amount strictly below the
computed minimum fails with `BadResponse "Liquidity too low"`, and
otherwise the decoded amount is returned. -/
theorem get_uniswap_price_liquidity_guard (env : QuoteEnv)
    (fee spl amount amountOutMin : Nat) (result : List Nat)
    (hfee : bad_fee fee = false)
    (hspl : bad_sqrt_price_limit spl = false)
    (hsim : env.simulate = .ok result)
    (hmin : env.sensibleAmountOut = .ok amountOutMin)
    (hlen : 32 ≤ result.length) :
    (from_bytes_be (result.take 32) < amountOutMin →
      get_uniswap_price env (some fee) amount (some spl)
        = .error (.BadResponse "Liquidity too low"))
    ∧ (amountOutMin ≤ from_bytes_be (result.take 32) →
      get_uniswap_price env (some fee) amount (some spl)
        = .ok (from_bytes_be (result.take 32))) := by
  constructor
  · intro h
    simp [get_uniswap_price, hfee, hspl, hsim, hmin, first_32_bytes, hlen, h]
  · intro h
    simp [get_uniswap_price, hfee, hspl, hsim, hmin, first_32_bytes, hlen,
      Nat.not_lt.mpr h]

/-- Witness for C3: a 32-byte quote decoding to 5 against a minimum of 7
is rejected as too little liquidity. -/
theorem get_uniswap_price_liquidity_guard_witness :
    bad_fee 500 = false
    ∧ from_bytes_be ((List.replicate 31 0 ++ [5]).take 32) < 7
    ∧ get_uniswap_price ⟨.ok (List.replicate 31 0 ++ [5]), .ok 7⟩
        (some 500) 11 (some 0)
        = .error (.BadResponse "Liquidity too low") :=
  ⟨by decide, by decide,
    (get_uniswap_price_liquidity_guard ⟨.ok (List.replicate 31 0 ++ [5]), .ok 7⟩
      500 0 11 7 (List.replicate 31 0 ++ [5]) (by decide) (by decide)
      rfl rfl (by decide)).1 (by decide)⟩

/-- C5 counterexample: `get_uniswap_pool_address` performs no fee-width
check.  At the concrete over-width fee 2^24 (with a successful pool
lookup returning the address 1) the operation succeeds instead of
failing with `BadInput`. -/
theorem get_uniswap_pool_address_fee_unchecked :
    bad_fee (2 ^ 24) = true
    ∧ get_uniswap_pool_address ⟨.ok (List.replicate 31 0 ++ [1])⟩
        (some (2 ^ 24)) = .ok 1 :=
  ⟨by decide, by decide⟩

/-- C5 (amended): an over-width fee (≥ 2^24) makes `get_uniswap_price`,
`swap_uniswap` and `swap_uniswap_eth_in` fail with `BadInput` before any
network interaction (the result does not depend on the environment); any
fee below 2^24 is accepted by the check; `get_uniswap_pool_address`
performs no such validation and never reports `BadInput`. -/
theorem fee_width_validation (fee : Nat) (qenv : QuoteEnv) (senv : SwapEnv)
    (penv : PoolEnv) (amount : Nat) (spl dl aom : Option Nat) (w : Bool)
    (s : String) :
    (2 ^ 24 ≤ fee →
      get_uniswap_price qenv (some fee) amount spl
        = .error (.BadInput
            "Bad fee input to swap price - value too large for uint24")
      ∧ swap_uniswap senv (some fee) dl aom spl w
        = .err (.BadInput
            "Bad fee input to swap_uniswap - value too large for uint24")
      ∧ swap_uniswap_eth_in senv (some fee) dl aom spl w
        = .err (.BadInput
            "Bad fee input to swap_uniswap_eth_in - value too large for uint24"))
    ∧ (fee < 2 ^ 24 → bad_fee fee = false)
    ∧ get_uniswap_pool_address penv (some fee) ≠ .err (.BadInput s) := by
  refine ⟨?_, ?_, ?_⟩
  · intro h
    have hbad : bad_fee fee = true := by
      simp only [bad_fee, TT24M1, gt_iff_lt, decide_eq_true_eq]
      omega
    exact ⟨by simp [get_uniswap_price, hbad],
      by simp [swap_uniswap, hbad],
      by simp [swap_uniswap_eth_in, hbad]⟩
  · intro h
    simp only [bad_fee, TT24M1, gt_iff_lt, decide_eq_false_iff_not, not_lt]
    omega
  · unfold get_uniswap_pool_address
    cases hsim : penv.simulate with
    | error e => simp
    | ok bytes =>
      split
      · simp
      · split
        · simp
        · split <;> simp

/-- Witness for C5's amended theorem at fee 2^24. -/
theorem fee_width_validation_witness :
    2 ^ 24 ≤ 2 ^ 24
    ∧ (get_uniswap_price quoteEnvTrivial (some (2 ^ 24)) 1 none
        = .error (.BadInput
            "Bad fee input to swap price - value too large for uint24")
      ∧ swap_uniswap swapEnvTrivial (some (2 ^ 24)) none none none false
        = .err (.BadInput
            "Bad fee input to swap_uniswap - value too large for uint24")
      ∧ swap_uniswap_eth_in swapEnvTrivial (some (2 ^ 24)) none none none
          false
        = .err (.BadInput
            "Bad fee input to swap_uniswap_eth_in - value too large for uint24")) :=
  ⟨le_refl _,
    (fee_width_validation (2 ^ 24) quoteEnvTrivial swapEnvTrivial
      poolEnvTrivial 1 none none none false "x").1 (le_refl _)⟩

/-- C2 counterexample: a fully successful run of `send_transaction` (the
concrete all-succeeding environment, no options) signs the transaction
twice, not once — client.rs calls `transaction.sign` at line 696 and
again at line 702 before broadcasting. -/
theorem send_transaction_signs_twice :
    (send_transaction sendEnvOk []).result = .ok 7
    ∧ (send_transaction sendEnvOk []).events.count .sign = 2
    ∧ (send_transaction sendEnvOk []).events.count .sign ≠ 1 := by
  decide

/-- C2 (amended): every successful run of `send_transaction` performs
exactly the action sequence validate, sign, validate, sign, broadcast —
the draft is validated twice (structurally before the first signing,
signature included between the two signings) but signed twice, the second
signing re-signing the already-signed transaction before the bytes are
broadcast; if either validation fails the call returns `BadInput` and no
broadcast is attempted. -/
theorem send_transaction_sign_validate_discipline {F : Type}
    (env : SendEnv F) (options : List (SendTxOption F)) (v : Nat) :
    ((send_transaction env options).result = .ok v →
      (send_transaction env options).events
        = [.validate, .sign, .validate, .sign, .broadcast])
    ∧ (env.validUnsigned = false →
        .broadcast ∉ (send_transaction env options).events
        ∧ (.validate ∈ (send_transaction env options).events →
            (send_transaction env options).result
              = .error (.BadInput "About to send invalid tx")))
    ∧ (env.validSigned = false →
        .broadcast ∉ (send_transaction env options).events
        ∧ (.sign ∈ (send_transaction env options).events →
            (send_transaction env options).result
              = .error (.BadInput "About to send invalid tx"))) := by
  unfold send_transaction
  cases hp : prepare_transaction env options with
  | error e => simp
  | ok tx =>
    unfold finalize_transaction
    cases hu : env.validUnsigned <;> cases hs : env.validSigned <;> simp

/-- Witness for C2's amended theorem: the all-succeeding environment
reaches broadcast with the five-event trace. -/
theorem send_transaction_sign_validate_discipline_witness :
    (send_transaction sendEnvOk []).result = .ok 7
    ∧ (send_transaction sendEnvOk []).events
        = [.validate, .sign, .validate, .sign, .broadcast] :=
  ⟨by decide,
    (send_transaction_sign_validate_discipline sendEnvOk [] 7).1 (by decide)⟩

/-- True for the option kinds that write `max_fee_per_gas` in the option
loop of `send_transaction`. -/
def sets_max_fee {F : Type} : SendTxOption F → Bool
  | .GasPrice _ => true
  | .GasMaxFee _ => true
  | .GasPriceMultiplier _ => true
  | .GasMaxFeeMultiplier _ => true
  | _ => false

/-- True for the option kind that writes `max_priority_fee_per_gas`. -/
def sets_priority_fee {F : Type} : SendTxOption F → Bool
  | .GasPriorityFee _ => true
  | _ => false

/-- True for the `NetworkId` option, which is incompatible with the
EIP-1559 path. -/
def is_network_id {F : Type} : SendTxOption F → Bool
  | .NetworkId _ => true
  | _ => false

theorem apply_send_tx_options_cons {F : Type} (fm : F → Nat → Nat)
    (fr : F → Nat) (b : Nat) (s : TxSettings F) (o : SendTxOption F)
    (rest : List (SendTxOption F)) :
    apply_send_tx_options fm fr b s (o :: rest)
      = match apply_send_tx_option fm fr b s o with
        | .error e => .error e
        | .ok s1 => apply_send_tx_options fm fr b s1 rest := by
  show List.foldlM _ _ _ = _
  rw [List.foldlM_cons]
  cases apply_send_tx_option fm fr b s o <;> rfl

theorem apply_send_tx_options_append {F : Type} (fm : F → Nat → Nat)
    (fr : F → Nat) (b : Nat) (l1 l2 : List (SendTxOption F))
    (s : TxSettings F) :
    apply_send_tx_options fm fr b s (l1 ++ l2)
      = match apply_send_tx_options fm fr b s l1 with
        | .error e => .error e
        | .ok s1 => apply_send_tx_options fm fr b s1 l2 := by
  induction l1 generalizing s with
  | nil => rfl
  | cons o rest ih =>
    rw [List.cons_append, apply_send_tx_options_cons,
      apply_send_tx_options_cons]
    cases apply_send_tx_option fm fr b s o with
    | error e => rfl
    | ok s1 => exact ih s1

theorem apply_send_tx_options_no_network_id {F : Type}
    (fm : F → Nat → Nat) (fr : F → Nat) (b : Nat)
    (options : List (SendTxOption F)) (s : TxSettings F)
    (hn : ∀ o ∈ options, is_network_id o = false) :
    ∃ s', apply_send_tx_options fm fr b s options = .ok s'
      ∧ ((∀ o ∈ options, sets_max_fee o = false) →
          s'.maxFeePerGas = s.maxFeePerGas)
      ∧ ((∀ o ∈ options, sets_priority_fee o = false) →
          s'.maxPriorityFeePerGas = s.maxPriorityFeePerGas) := by
  induction options generalizing s with
  | nil => exact ⟨s, rfl, fun _ => rfl, fun _ => rfl⟩
  | cons o rest ih =>
    have hno : is_network_id o = false := hn o (List.mem_cons_self o rest)
    have hnrest : ∀ o ∈ rest, is_network_id o = false :=
      fun o ho => hn o (List.mem_cons_of_mem _ ho)
    have step : ∃ s1, apply_send_tx_option fm fr b s o = .ok s1
        ∧ (sets_max_fee o = false → s1.maxFeePerGas = s.maxFeePerGas)
        ∧ (sets_priority_fee o = false →
            s1.maxPriorityFeePerGas = s.maxPriorityFeePerGas) := by
      cases o with
      | NetworkId id => simp [is_network_id] at hno
      | GasPrice gp =>
        exact ⟨_, rfl, fun h => by simp [sets_max_fee] at h, fun _ => rfl⟩
      | GasMaxFee gp =>
        exact ⟨_, rfl, fun h => by simp [sets_max_fee] at h, fun _ => rfl⟩
      | GasPriceMultiplier gm =>
        exact ⟨_, rfl, fun h => by simp [sets_max_fee] at h, fun _ => rfl⟩
      | GasMaxFeeMultiplier gm =>
        exact ⟨_, rfl, fun h => by simp [sets_max_fee] at h, fun _ => rfl⟩
      | GasPriorityFee gp =>
        exact ⟨_, rfl, fun _ => rfl,
          fun h => by simp [sets_priority_fee] at h⟩
      | GasLimitMultiplier glm => exact ⟨_, rfl, fun _ => rfl, fun _ => rfl⟩
      | GasLimit gl => exact ⟨_, rfl, fun _ => rfl, fun _ => rfl⟩
      | Nonce n => exact ⟨_, rfl, fun _ => rfl, fun _ => rfl⟩
      | AccessList list => exact ⟨_, rfl, fun _ => rfl, fun _ => rfl⟩
    obtain ⟨s1, hs1, hs1max, hs1pri⟩ := step
    obtain ⟨s', hs', hmax, hpri⟩ := ih s1 hnrest
    refine ⟨s', ?_, ?_, ?_⟩
    · rw [apply_send_tx_options_cons, hs1]
      exact hs'
    · intro h
      rw [hmax (fun o ho => h o (List.mem_cons_of_mem _ ho)),
        hs1max (h o (List.mem_cons_self o rest))]
    · intro h
      rw [hpri (fun o ho => h o (List.mem_cons_of_mem _ ho)),
        hs1pri (h o (List.mem_cons_self o rest))]

/-- C6: in `send_transaction`, a latest block with no base-fee field
fails the call with `PreLondon`; with base fee b and no overriding
option, the transaction is built with max fee b · 2 and priority fee 1;
a `GasMaxFee` (resp. `GasPriorityFee`) option appended after any options
replaces the max fee (resp. priority fee) computed so far — later options
of the same kind overwrite earlier ones. -/
theorem send_transaction_fee_defaults {F : Type} (env : SendEnv F)
    (options : List (SendTxOption F)) (bal nonce0 cid baseFee v : Nat)
    (s : TxSettings F) :
    (env.balance = .ok bal → env.transactionCount = .ok nonce0 →
      env.chainId = .ok cid → env.baseFeePerGas = .ok none →
      send_transaction env options = ⟨.error .PreLondon, [], none⟩)
    ∧ ((∀ o ∈ options, is_network_id o = false) →
        ∃ s', apply_send_tx_options env.applyFeeMul env.fRound baseFee
            (initial_tx_settings env.fOne nonce0 baseFee) options = .ok s'
          ∧ ((∀ o ∈ options, sets_max_fee o = false) →
              s'.maxFeePerGas = baseFee * 2)
          ∧ ((∀ o ∈ options, sets_priority_fee o = false) →
              s'.maxPriorityFeePerGas = 1))
    ∧ (apply_send_tx_options env.applyFeeMul env.fRound baseFee
          (initial_tx_settings env.fOne nonce0 baseFee) options = .ok s →
        apply_send_tx_options env.applyFeeMul env.fRound baseFee
            (initial_tx_settings env.fOne nonce0 baseFee)
            (options ++ [.GasMaxFee v]) = .ok { s with maxFeePerGas := v }
        ∧ apply_send_tx_options env.applyFeeMul env.fRound baseFee
            (initial_tx_settings env.fOne nonce0 baseFee)
            (options ++ [.GasPriorityFee v])
          = .ok { s with maxPriorityFeePerGas := v }) := by
  refine ⟨?_, ?_, ?_⟩
  · intro hb hn hc hbf
    simp [send_transaction, prepare_transaction, hb, hn, hc, hbf]
  · intro hn
    obtain ⟨s', hs', hmax, hpri⟩ :=
      apply_send_tx_options_no_network_id env.applyFeeMul env.fRound baseFee
        options (initial_tx_settings env.fOne nonce0 baseFee) hn
    exact ⟨s', hs', fun h => hmax h, fun h => hpri h⟩
  · intro hs
    constructor
    · rw [apply_send_tx_options_append, hs]
      rfl
    · rw [apply_send_tx_options_append, hs]
      rfl

/-- An environment on a pre-London chain: the latest block carries no
base fee. -/
def sendEnvPreLondon : SendEnv Nat :=
  { sendEnvOk with baseFeePerGas := .ok none }

/-- Witness for C6: the pre-London environment fails with `PreLondon`,
and with no options the fold keeps max fee 10 · 2 and priority fee 1. -/
theorem send_transaction_fee_defaults_witness :
    sendEnvPreLondon.baseFeePerGas = .ok none
    ∧ send_transaction sendEnvPreLondon [] = ⟨.error .PreLondon, [], none⟩ :=
  ⟨rfl,
    (send_transaction_fee_defaults sendEnvPreLondon [] 1000000000 5 1 10 0
      (initial_tx_settings 1 5 10)).1 rfl rfl rfl rfl⟩

theorem eth_wait_step_some_ok (n : Nat) (p : WaitPoll)
    (t : TransactionResponse)
    (h : eth_wait_step (some n) p = .ret (.ok t)) :
    p.txByHash = .ok (some t)
    ∧ ∃ currentBlock txBlock, p.blockNumber = .ok currentBlock
      ∧ t.blockNumber = some txBlock
      ∧ n < currentBlock ∧ txBlock ≤ currentBlock - n := by
  unfold eth_wait_step at h
  cases htx : p.txByHash with
  | error e =>
    rw [htx] at h
    simp at h
  | ok mt =>
    rw [htx] at h
    dsimp only at h
    cases mt with
    | none =>
      cases hto : p.timedOut <;> simp [hto] at h
    | some tx =>
      dsimp only at h
      cases hb : tx.blockNumber with
      | none =>
        rw [hb] at h
        cases hto : p.timedOut <;> simp [hto] at h
      | some txb =>
        rw [hb] at h
        dsimp only at h
        cases hcb : p.blockNumber with
        | error e =>
          rw [hcb] at h
          simp at h
        | ok currentBlock =>
          rw [hcb] at h
          dsimp only at h
          by_cases hgt : currentBlock > n
          · rw [if_pos hgt] at h
            have hsub : checkedSub currentBlock n = some (currentBlock - n) :=
              if_pos (Nat.le_of_lt hgt)
            rw [hsub] at h
            dsimp only at h
            by_cases hge : currentBlock - n ≥ txb
            · rw [if_pos hge] at h
              simp at h
              subst h
              exact ⟨rfl, currentBlock, txb, rfl, hb, hgt, hge⟩
            · rw [if_neg hge] at h
              cases hto : p.timedOut <;> simp [hto] at h
          · rw [if_neg hgt] at h
            cases hto : p.timedOut <;> simp [hto] at h

theorem eth_wait_step_ne_crashed (bw : Option Nat) (p : WaitPoll) :
    eth_wait_step bw p ≠ .crashed := by
  intro h
  unfold eth_wait_step at h
  cases htx : p.txByHash with
  | error e =>
    rw [htx] at h
    simp at h
  | ok mt =>
    rw [htx] at h
    dsimp only at h
    cases mt with
    | none =>
      cases hto : p.timedOut <;> simp [hto] at h
    | some tx =>
      dsimp only at h
      cases bw with
      | none =>
        cases hb : tx.blockNumber with
        | none =>
          rw [hb] at h
          cases hto : p.timedOut <;> simp [hto] at h
        | some txb =>
          rw [hb] at h
          simp at h
      | some n =>
        cases hb : tx.blockNumber with
        | none =>
          rw [hb] at h
          cases hto : p.timedOut <;> simp [hto] at h
        | some txb =>
          rw [hb] at h
          dsimp only at h
          cases hcb : p.blockNumber with
          | error e =>
            rw [hcb] at h
            simp at h
          | ok currentBlock =>
            rw [hcb] at h
            dsimp only at h
            by_cases hgt : currentBlock > n
            · rw [if_pos hgt] at h
              have hsub : checkedSub currentBlock n
                  = some (currentBlock - n) := if_pos (Nat.le_of_lt hgt)
              rw [hsub] at h
              dsimp only at h
              by_cases hge : currentBlock - n ≥ txb
              · rw [if_pos hge] at h
                simp at h
              · rw [if_neg hge] at h
                cases hto : p.timedOut <;> simp [hto] at h
            · rw [if_neg hgt] at h
              cases hto : p.timedOut <;> simp [hto] at h

theorem eth_wait_run_ne_crashed (bw : Option Nat) (ps : List WaitPoll) :
    eth_wait_for_transaction bw ps ≠ .crashed := by
  induction ps with
  | nil => simp [eth_wait_for_transaction]
  | cons p ps ih =>
    unfold eth_wait_for_transaction
    cases hstep : eth_wait_step bw p with
    | ret r => simp
    | crashed => exact absurd hstep (eth_wait_step_ne_crashed bw p)
    | keepPolling => exact ih

theorem eth_wait_run_some_ok (n : Nat) (ps : List WaitPoll)
    (t : TransactionResponse)
    (h : eth_wait_for_transaction (some n) ps = .ret (.ok t)) :
    ∃ q ∈ ps, q.txByHash = .ok (some t)
      ∧ ∃ currentBlock txBlock, q.blockNumber = .ok currentBlock
        ∧ t.blockNumber = some txBlock
        ∧ n < currentBlock ∧ txBlock ≤ currentBlock - n := by
  induction ps with
  | nil => simp [eth_wait_for_transaction] at h
  | cons p ps ih =>
    unfold eth_wait_for_transaction at h
    cases hstep : eth_wait_step (some n) p with
    | ret r =>
      rw [hstep] at h
      simp at h
      subst h
      obtain ⟨htx, cb, txb, hcb, hb, hgt, hge⟩ :=
        eth_wait_step_some_ok n p t hstep
      exact ⟨p, List.mem_cons_self p ps, htx, cb, txb, hcb, hb, hgt, hge⟩
    | crashed => exact absurd hstep (eth_wait_step_ne_crashed (some n) p)
    | keepPolling =>
      rw [hstep] at h
      obtain ⟨q, hq, rest⟩ := ih h
      exact ⟨q, List.mem_cons_of_mem p hq, rest⟩

/-- C4: the confirmation waiter.  With `blocks_to_wait = None`, any poll
showing the transaction with an inclusion block returns it at once.  With
`blocks_to_wait = Some n`, a successful return can only happen because
some poll observed a current block with `current_block > n` and
`current_block - n ≥ inclusion_block` — and the guarded subtraction never
crashes (no underflow), for any parameters.  A poll whose deadline has
passed never keeps polling, and when it found nothing it returns
`TransactionTimeout`; any poll error terminates the wait with that
error. -/
theorem eth_wait_for_transaction_spec (bw : Option Nat) (n : Nat)
    (p : WaitPoll) (ps : List WaitPoll) (t : TransactionResponse)
    (e : Web3Error) :
    (p.txByHash = .ok (some t) → t.blockNumber.isSome = true →
      eth_wait_step none p = .ret (.ok t))
    ∧ (eth_wait_for_transaction (some n) ps = .ret (.ok t) →
        ∃ q ∈ ps, q.txByHash = .ok (some t)
          ∧ ∃ currentBlock txBlock, q.blockNumber = .ok currentBlock
            ∧ t.blockNumber = some txBlock
            ∧ n < currentBlock ∧ txBlock ≤ currentBlock - n)
    ∧ eth_wait_step bw p ≠ .crashed
    ∧ eth_wait_for_transaction bw ps ≠ .crashed
    ∧ (p.timedOut = true → eth_wait_step bw p ≠ .keepPolling)
    ∧ (p.timedOut = true → p.txByHash = .ok none →
        eth_wait_step bw p = .ret (.error .TransactionTimeout))
    ∧ (p.txByHash = .error e → eth_wait_step bw p = .ret (.error e)) := by
  refine ⟨?_, eth_wait_run_some_ok n ps t, eth_wait_step_ne_crashed bw p,
    eth_wait_run_ne_crashed bw ps, ?_, ?_, ?_⟩
  · intro htx hsome
    cases hb : t.blockNumber with
    | none => rw [hb] at hsome; simp at hsome
    | some b => simp [eth_wait_step, htx, hb]
  · intro hto hkeep
    unfold eth_wait_step at hkeep
    cases htx : p.txByHash with
    | error e2 =>
      rw [htx] at hkeep
      simp at hkeep
    | ok mt =>
      rw [htx] at hkeep
      dsimp only at hkeep
      cases mt with
      | none => simp [hto] at hkeep
      | some tx =>
        dsimp only at hkeep
        cases bw with
        | none =>
          cases hb : tx.blockNumber with
          | none => rw [hb] at hkeep; simp [hto] at hkeep
          | some txb => rw [hb] at hkeep; simp at hkeep
        | some m =>
          cases hb : tx.blockNumber with
          | none => rw [hb] at hkeep; simp [hto] at hkeep
          | some txb =>
            rw [hb] at hkeep
            dsimp only at hkeep
            cases hcb : p.blockNumber with
            | error e2 => rw [hcb] at hkeep; simp at hkeep
            | ok currentBlock =>
              rw [hcb] at hkeep
              dsimp only at hkeep
              by_cases hgt : currentBlock > m
              · rw [if_pos hgt] at hkeep
                have hsub : checkedSub currentBlock m
                    = some (currentBlock - m) := if_pos (Nat.le_of_lt hgt)
                rw [hsub] at hkeep
                dsimp only at hkeep
                by_cases hge : currentBlock - m ≥ txb
                · rw [if_pos hge] at hkeep
                  simp at hkeep
                · rw [if_neg hge] at hkeep
                  simp [hto] at hkeep
              · rw [if_neg hgt] at hkeep
                simp [hto] at hkeep
  · intro hto htx
    simp [eth_wait_step, htx, hto]
  · intro htx
    simp [eth_wait_step, htx]

/-- A poll observing the transaction included in block 3. -/
def waitPollFound : WaitPoll := ⟨.ok (some ⟨some 3⟩), .ok 0, false⟩

/-- Witness for C4: with no block-depth requirement, the poll observing
the included transaction returns it at once. -/
theorem eth_wait_for_transaction_spec_witness :
    waitPollFound.txByHash
        = .ok (some (⟨some 3⟩ : TransactionResponse))
    ∧ (⟨some 3⟩ : TransactionResponse).blockNumber.isSome = true
    ∧ eth_wait_step none waitPollFound
        = .ret (.ok (⟨some 3⟩ : TransactionResponse)) :=
  ⟨rfl, rfl,
    (eth_wait_for_transaction_spec none 0 waitPollFound [] ⟨some 3⟩
      .PreLondon).1 rfl rfl⟩

/-- C9 counterexample: three public AMM operations panic instead of
returning an error.  Concretely: `get_uniswap_pool_address` unwraps a
failed pool-resolution call; `swap_uniswap` with no explicit deadline
unwraps a failed latest-block fetch; `uniswap_sqrt_price_from_amounts`
with amount0 = 0 divides by zero. -/
theorem amm_panic_counterexample :
    get_uniswap_pool_address ⟨.error (.TransportError "connection refused")⟩
        (some 3000) = .crashed
    ∧ swap_uniswap swapEnvBlockFetchFails (some 3000) none none none false
        = .crashed
    ∧ uniswap_sqrt_price_from_amounts_checked 1 0 = none := by
  refine ⟨rfl, by decide, rfl⟩

/-- C9 (amended): the client and AMM operations return success or a
`Web3Error` except at three places, which panic. Phrased positively:
`get_uniswap_pool_address` crashes whenever its pool-resolution call
errors, `swap_uniswap` crashes whenever it must default the deadline and
the latest-block fetch errors, and the sqrt-price encoder crashes exactly
at amount0 = 0 (for every nonzero amount0 it returns the computed
value). -/
theorem amm_panic_sites (e : Web3Error) (fee : Nat) (senv : SwapEnv)
    (penv : PoolEnv) (aom : Option Nat) (w : Bool) (a1 a0 : Nat) :
    (penv.simulate = .error e →
      get_uniswap_pool_address penv (some fee) = .crashed)
    ∧ (bad_fee fee = false → senv.latestBlockTimestamp = .error e →
        swap_uniswap senv (some fee) none aom none w = .crashed)
    ∧ uniswap_sqrt_price_from_amounts_checked a1 0 = none
    ∧ (a0 ≠ 0 → uniswap_sqrt_price_from_amounts_checked a1 a0
        = some (uniswap_sqrt_price_from_amounts a1 a0)) := by
  refine ⟨?_, ?_, rfl, ?_⟩
  · intro hsim
    simp [get_uniswap_pool_address, hsim]
  · intro hfee hblk
    simp [swap_uniswap, hfee, hblk, bad_sqrt_price_limit, TT160M1]
  · intro h
    simp [uniswap_sqrt_price_from_amounts_checked, h]

/-- Witness for C9's amended theorem: fee 3000 passes the width check
and the failed latest-block fetch crashes the deadline defaulting. -/
theorem amm_panic_sites_witness :
    bad_fee 3000 = false
    ∧ swapEnvBlockFetchFails.latestBlockTimestamp
        = .error (.TransportError "connection refused")
    ∧ swap_uniswap swapEnvBlockFetchFails (some 3000) none none none false
        = .crashed :=
  ⟨by decide, rfl,
    (amm_panic_sites (.TransportError "connection refused") 3000
      swapEnvBlockFetchFails poolEnvTrivial none false 1 1).2.1
      (by decide) rfl⟩

/-- C10: `simulate_transaction` builds the `quick_tx` request and sends
it as-is when `check_sync` is false (the value `Web3::new` installs):
no nonce, no gas fields, no balance validation.  When `check_sync` is
true it performs the intrinsic-gas balance check (failing
`InsufficientGas` below 21000) and sends the same request with only the
nonce, gas limit and gas price fields filled in from the remote reads. -/
theorem simulate_transaction_check_sync_spec (env : SimulateEnv)
    (own contract : Nat) (d : List Nat) (balance nonce gasPrice : Nat) :
    simulate_transaction_request false env own contract d
        = .ok (quick_tx own contract d)
    ∧ ((quick_tx own contract d).nonce = none
      ∧ (quick_tx own contract d).gasPrice = none
      ∧ (quick_tx own contract d).gasLimit = none)
    ∧ web3_new_check_sync = false
    ∧ (env.balance = .ok balance →
        ¬(balance = 0 ∨ balance < ETHEREUM_INTRINSIC_GAS) →
        env.transactionCount = .ok nonce →
        env.gasPrice = .ok gasPrice → gasPrice ≠ 0 →
        simulate_transaction_request true env own contract d
          = .ok { quick_tx own contract d with
                    nonce := some nonce
                    gasLimit := some (min 12450000 (balance / gasPrice))
                    gasPrice := some gasPrice })
    ∧ (env.balance = .ok balance → balance < ETHEREUM_INTRINSIC_GAS →
        simulate_transaction_request true env own contract d
          = .err (.InsufficientGas balance ETHEREUM_INTRINSIC_GAS
              ETHEREUM_INTRINSIC_GAS)) := by
  refine ⟨rfl, ⟨rfl, rfl, rfl⟩, rfl, ?_, ?_⟩
  · intro hb hok hn hg hgz
    simp [simulate_transaction_request, hb, hok, hn,
      simulated_gas_price_and_limit, hg, hgz]
  · intro hb hlt
    have hor : balance = 0 ∨ balance < ETHEREUM_INTRINSIC_GAS := Or.inr hlt
    simp [simulate_transaction_request, hb, hor]

/-- Witness for C10: with `check_sync` true, balance 100000, nonce 4 and
gas price 7, the request carries exactly those derived fields. -/
theorem simulate_transaction_check_sync_spec_witness :
    (⟨.ok 100000, .ok 4, .ok 7⟩ : SimulateEnv).balance = .ok 100000
    ∧ ¬((100000 : Nat) = 0 ∨ 100000 < ETHEREUM_INTRINSIC_GAS)
    ∧ simulate_transaction_request true ⟨.ok 100000, .ok 4, .ok 7⟩ 1 2 [3]
        = .ok { quick_tx 1 2 [3] with
                  nonce := some 4
                  gasLimit := some (min 12450000 (100000 / 7))
                  gasPrice := some 7 } :=
  ⟨rfl, by decide,
    (simulate_transaction_check_sync_spec ⟨.ok 100000, .ok 4, .ok 7⟩ 1 2 [3]
      100000 4 7).2.2.2.1 rfl (by decide) rfl rfl (by decide)⟩

end Web30
